import Mathlib

/-
Verification of the Attributor fixpoint-framework header
(llvm/include/llvm/Transforms/IPO/Attributor.h).

The integer lattice state, the Attributor bookkeeping (attribute pool,
lookup map, query-dependency map) and the subsuming-position computation
are embedded as executable Lean definitions and the specified properties
are proved or refuted about them.
-/

namespace AttributorModel

/-- Width modulus of the underlying integer type `base_t = uint32_t`. -/
def U32 : Nat := 2 ^ 32

/-- Bitwise complement at 32 bits: models `~b` on a `uint32_t` value. -/
def compl32 (b : Nat) : Nat := (U32 - 1) ^^^ (b % U32)

/-- Result type of the fixpoint-indication methods. -/
inductive ChangeStatus where
  | CHANGED
  | UNCHANGED
deriving DecidableEq, Repr

/-- Simple state with integers encoding: the `Known` and `Assumed`
fields of `IntegerState`, each a `uint32_t` value represented as a
natural number below `2^32`. -/
structure IntegerState where
  Known : Nat
  Assumed : Nat
deriving DecidableEq, Repr

namespace IntegerState

/-- Constructor `IntegerState(base_t BestState)`: `Assumed` is set to
`BestState`, `Known` has its in-class initializer `getWorstState() = 0`. -/
def init (BestState : Nat) : IntegerState :=
  { Known := 0, Assumed := BestState % U32 }

/-- Default-constructed state: the default argument is `~0`, which as a
`uint32_t` is `2^32 - 1`. -/
def initDefault : IntegerState := init (U32 - 1)

/-- Method `getWorstState()`: returns 0. -/
def getWorstState : Nat := 0

/-- Method `isValidState()`: `Assumed != getWorstState()`. -/
def isValidState (s : IntegerState) : Bool :=
  s.Assumed != getWorstState

/-- Method `isAtFixpoint()`: `Assumed == Known`. -/
def isAtFixpoint (s : IntegerState) : Bool :=
  s.Assumed == s.Known

/-- Method `indicateOptimisticFixpoint()`: `Known = Assumed`, returns
`ChangeStatus::UNCHANGED`. -/
def indicateOptimisticFixpoint (s : IntegerState) : IntegerState × ChangeStatus :=
  ({ s with Known := s.Assumed }, ChangeStatus.UNCHANGED)

/-- Method `indicatePessimisticFixpoint()`: `Assumed = Known`, returns
`ChangeStatus::CHANGED`. -/
def indicatePessimisticFixpoint (s : IntegerState) : IntegerState × ChangeStatus :=
  ({ s with Assumed := s.Known }, ChangeStatus.CHANGED)

/-- Method `addKnownBits(Bits)`: `Assumed |= Bits; Known |= Bits`. -/
def addKnownBits (s : IntegerState) (Bits : Nat) : IntegerState :=
  { Known := s.Known ||| (Bits % U32), Assumed := s.Assumed ||| (Bits % U32) }

/-- Method `removeAssumedBits(BitsEncoding)`:
`Assumed = (Assumed & ~BitsEncoding) | Known`. -/
def removeAssumedBits (s : IntegerState) (BitsEncoding : Nat) : IntegerState :=
  { s with Assumed := (s.Assumed &&& compl32 BitsEncoding) ||| s.Known }

/-- Method `intersectAssumedBits(BitsEncoding)`:
`Assumed = (Assumed & BitsEncoding) | Known`. -/
def intersectAssumedBits (s : IntegerState) (BitsEncoding : Nat) : IntegerState :=
  { s with Assumed := (s.Assumed &&& (BitsEncoding % U32)) ||| s.Known }

/-- Method `takeAssumedMinimum(Value)`:
`Assumed = std::max(std::min(Assumed, Value), Known)`. -/
def takeAssumedMinimum (s : IntegerState) (Value : Nat) : IntegerState :=
  { s with Assumed := max (min s.Assumed (Value % U32)) s.Known }

/-- Method `takeKnownMaximum(Value)`:
`Assumed = std::max(Value, Assumed); Known = std::max(Value, Known)`. -/
def takeKnownMaximum (s : IntegerState) (Value : Nat) : IntegerState :=
  { Known := max (Value % U32) s.Known, Assumed := max (Value % U32) s.Assumed }

end IntegerState

/-- Constructor of `BooleanState`: delegates to `IntegerState(1)`. -/
def BooleanState.init : IntegerState := IntegerState.init 1

/-- Bitset inclusion: every bit set in `x` is also set in `y`,
expressed as `(x & y) == x`. -/
def bitSubset (x y : Nat) : Prop := x &&& y = x

instance (x y : Nat) : Decidable (bitSubset x y) := by
  unfold bitSubset; infer_instance

/-- One mutating operation on an `IntegerState`, with its argument. -/
inductive Step where
  | addKnown (bits : Nat)
  | removeAssumed (bits : Nat)
  | intersectAssumed (bits : Nat)
  | takeAssumedMin (value : Nat)
  | takeKnownMax (value : Nat)
  | indicateOpt
  | indicatePess
deriving DecidableEq, Repr

/-- Apply one mutating operation to a state. -/
def applyStep (s : IntegerState) : Step → IntegerState
  | Step.addKnown b => s.addKnownBits b
  | Step.removeAssumed b => s.removeAssumedBits b
  | Step.intersectAssumed b => s.intersectAssumedBits b
  | Step.takeAssumedMin v => s.takeAssumedMinimum v
  | Step.takeKnownMax v => s.takeKnownMaximum v
  | Step.indicateOpt => (s.indicateOptimisticFixpoint).1
  | Step.indicatePess => (s.indicatePessimisticFixpoint).1

/-- Apply a sequence of mutating operations, first element first. -/
def applySteps (s : IntegerState) (l : List Step) : IntegerState :=
  l.foldl applyStep s

/-- Operations that manipulate the state only through bitwise
operations, as opposed to the arithmetic `std::min` / `std::max` ones. -/
def bitwiseStep : Step → Bool
  | Step.takeAssumedMin _ => false
  | Step.takeKnownMax _ => false
  | _ => true

/-- Identity of an `AbstractAttribute` object (its address in the C++
code), abstracted to a natural number. -/
abbrev AAId := Nat

/-- Bookkeeping state of the `Attributor`: the nested lookup map
`AAMap : IRPosition -> (kind id -> AbstractAttribute)`, the dependency
map `QueryMap : AbstractAttribute -> SetVector of querying attributes`
(a `SetVector` is modelled as a duplicate-free list preserving insertion
order), and the owning container `AllAbstractAttributes`. Positions and
kind identities (the `&AAType::ID` addresses) are abstracted to natural
numbers. -/
structure AttributorState where
  aaMap : Nat → Nat → Option AAId
  queryMap : AAId → List AAId
  allAbstractAttributes : List AAId

/-- A fresh `Attributor` with empty maps and empty pool. -/
def emptyAttributor : AttributorState :=
  { aaMap := fun _ _ => none, queryMap := fun _ => [], allAbstractAttributes := [] }

/-- Insertion into a `SetVector`: appends the element unless present. -/
def insertSetVector (l : List AAId) (x : AAId) : List AAId :=
  if x ∈ l then l else l ++ [x]

/-- Record `QueryMap[aa].insert(q)`. -/
def recordQuery (st : AttributorState) (aa q : AAId) : AttributorState :=
  { st with queryMap := fun a =>
      if a = aa then insertSetVector (st.queryMap a) q else st.queryMap a }

/-- Method `Attributor::registerAA(AA)`: sets `AAMap[IRP][&AAType::ID] = &AA`
and appends to `AllAbstractAttributes`; no check of a prior entry is made. -/
def registerAA (st : AttributorState) (pos kind aa : AAId) : AttributorState :=
  { st with
      aaMap := fun p k => if p = pos ∧ k = kind then some aa else st.aaMap p k,
      allAbstractAttributes := st.allAbstractAttributes ++ [aa] }

/-- Method `Attributor::getAAFor<AAType>(QueryingAA, IRP)`: looks the
attribute up in `AAMap`; if found and its state is valid, inserts the
querying attribute into the query map of the found one; if absent,
creates one (`fresh` stands for the object `AAType::createForPosition`
returns), registers it, and records the dependency only when the new
state is valid. `valid` gives the validity of each state,
fixed during the call. -/
def getAAFor (valid : AAId → Bool) (st : AttributorState)
    (queryingAA pos kind fresh : AAId) : AAId × AttributorState :=
  match st.aaMap pos kind with
  | some aa =>
      if valid aa then (aa, recordQuery st aa queryingAA) else (aa, st)
  | none =>
      let st1 := registerAA st pos kind fresh
      if valid fresh then (fresh, recordQuery st1 fresh queryingAA)
      else (fresh, st1)

/-- The `IRPosition::Kind` discriminators. -/
inductive PosKind where
  | IRP_INVALID
  | IRP_FLOAT
  | IRP_RETURNED
  | IRP_CALL_SITE_RETURNED
  | IRP_FUNCTION
  | IRP_CALL_SITE
  | IRP_ARGUMENT
  | IRP_CALL_SITE_ARGUMENT
deriving DecidableEq, Repr

/-- An `IRPosition`, abstracted: the anchor value is a natural number
(the enclosing function for returned/argument/function kinds, the call
site for call-site kinds) and `argNo` carries the argument index for
the two argument kinds (0 otherwise). -/
structure ModelPosition where
  kind : PosKind
  anchor : Nat
  argNo : Nat
deriving DecidableEq, Repr

/-- Modelled from the spec: the body of the `SubsumingPositionIterator`
constructor lives in lib/Transforms/IPO/Attributor.cpp, which is not
part of the sources at hand; only its declaration and the documentation
comment in Attributor.h are. Following the documented rules: the
iterator holds the original position first, then, by kind: a returned
or argument position adds the function; a call-site position adds the
resolved callee as a function, when known; a call-site-returned
position adds the resolved callee as a returned position, then the call
site, then the resolved callee as a function, the callee-derived
entries only when the callee is known; a call-site-argument position
adds the matching callee argument and the callee function, when known,
and the position of the underlying operand when it is anchored
elsewhere. `calleeOf` resolves a call site to its statically known
callee, `operandPos` gives the position the call-site argument operand
occupies when not anchored at the call site itself. -/
def subsumingPositions (calleeOf : Nat → Option Nat)
    (operandPos : Nat → Nat → Option ModelPosition)
    (p : ModelPosition) : List ModelPosition :=
  ModelPosition.mk p.kind p.anchor p.argNo ::
    match p.kind with
    | PosKind.IRP_RETURNED => [ModelPosition.mk PosKind.IRP_FUNCTION p.anchor 0]
    | PosKind.IRP_ARGUMENT => [ModelPosition.mk PosKind.IRP_FUNCTION p.anchor 0]
    | PosKind.IRP_CALL_SITE =>
        match calleeOf p.anchor with
        | some f => [ModelPosition.mk PosKind.IRP_FUNCTION f 0]
        | none => []
    | PosKind.IRP_CALL_SITE_RETURNED =>
        match calleeOf p.anchor with
        | some f =>
            [ModelPosition.mk PosKind.IRP_RETURNED f 0,
             ModelPosition.mk PosKind.IRP_CALL_SITE p.anchor 0,
             ModelPosition.mk PosKind.IRP_FUNCTION f 0]
        | none => [ModelPosition.mk PosKind.IRP_CALL_SITE p.anchor 0]
    | PosKind.IRP_CALL_SITE_ARGUMENT =>
        (match calleeOf p.anchor with
         | some f =>
             [ModelPosition.mk PosKind.IRP_ARGUMENT f p.argNo,
              ModelPosition.mk PosKind.IRP_FUNCTION f 0]
         | none => []) ++
        (match operandPos p.anchor p.argNo with
         | some q => [q]
         | none => [])
    | _ => []

/-! Helper lemmas about the bit-level behaviour of the operations. -/

theorem bitSubset_testBit {x y : Nat} (h : bitSubset x y) (i : Nat) :
    (x.testBit i && y.testBit i) = x.testBit i := by
  have hx := congrArg (fun t => Nat.testBit t i) h
  simp only [Nat.testBit_land] at hx
  exact hx

theorem bitSubset_le {x y : Nat} (h : bitSubset x y) : x ≤ y :=
  h ▸ Nat.and_le_right

theorem lor_lor_self (x b : Nat) : (x ||| b) ||| b = x ||| b := by
  apply Nat.eq_of_testBit_eq
  intro i
  simp only [Nat.testBit_lor]
  cases x.testBit i <;> cases b.testBit i <;> rfl

theorem and_or_round_trip (A K c : Nat) :
    ((((A &&& c) ||| K) &&& c) ||| K) = (A &&& c) ||| K := by
  apply Nat.eq_of_testBit_eq
  intro i
  simp only [Nat.testBit_lor, Nat.testBit_land]
  cases A.testBit i <;> cases K.testBit i <;> cases c.testBit i <;> rfl

theorem subset_addKnownBits (s : IntegerState) (b : Nat)
    (h : bitSubset s.Known s.Assumed) :
    bitSubset (s.addKnownBits b).Known (s.addKnownBits b).Assumed := by
  show (s.Known ||| b % U32) &&& (s.Assumed ||| b % U32) = s.Known ||| b % U32
  apply Nat.eq_of_testBit_eq
  intro i
  have hi := bitSubset_testBit h i
  simp only [Nat.testBit_land, Nat.testBit_lor]
  revert hi
  cases s.Known.testBit i <;> cases s.Assumed.testBit i <;>
    cases (b % U32).testBit i <;> decide

theorem subset_removeAssumedBits (s : IntegerState) (b : Nat) :
    bitSubset (s.removeAssumedBits b).Known (s.removeAssumedBits b).Assumed := by
  show s.Known &&& ((s.Assumed &&& compl32 b) ||| s.Known) = s.Known
  apply Nat.eq_of_testBit_eq
  intro i
  simp only [Nat.testBit_land, Nat.testBit_lor]
  cases s.Known.testBit i <;> cases s.Assumed.testBit i <;>
    cases (compl32 b).testBit i <;> rfl

theorem subset_intersectAssumedBits (s : IntegerState) (b : Nat) :
    bitSubset (s.intersectAssumedBits b).Known (s.intersectAssumedBits b).Assumed := by
  show s.Known &&& ((s.Assumed &&& b % U32) ||| s.Known) = s.Known
  apply Nat.eq_of_testBit_eq
  intro i
  simp only [Nat.testBit_land, Nat.testBit_lor]
  cases s.Known.testBit i <;> cases s.Assumed.testBit i <;>
    cases (b % U32).testBit i <;> rfl

theorem subset_indicateOpt (s : IntegerState) :
    bitSubset (s.indicateOptimisticFixpoint).1.Known
      (s.indicateOptimisticFixpoint).1.Assumed := by
  show s.Assumed &&& s.Assumed = s.Assumed
  apply Nat.eq_of_testBit_eq
  intro i
  simp only [Nat.testBit_land]
  cases s.Assumed.testBit i <;> rfl

theorem subset_indicatePess (s : IntegerState) :
    bitSubset (s.indicatePessimisticFixpoint).1.Known
      (s.indicatePessimisticFixpoint).1.Assumed := by
  show s.Known &&& s.Known = s.Known
  apply Nat.eq_of_testBit_eq
  intro i
  simp only [Nat.testBit_land]
  cases s.Known.testBit i <;> rfl

theorem mem_insertSetVector (l : List AAId) (x : AAId) : x ∈ insertSetVector l x := by
  by_cases h : x ∈ l <;> simp [insertSetVector, h]

/-! Claim theorems. -/

/-- C1 (counterexample): the claimed invariant `Known ⊆ Assumed` as
bitsets is not preserved by every mutating operation. Starting from the
state `Known = 1, Assumed = 3`, which satisfies it, one call
`takeAssumedMinimum(2)` sets `Assumed` to the numeric value `2`, and
bit 0 of `Known` is no longer among the assumed bits. -/
theorem C1_counterexample :
    bitSubset (IntegerState.mk 1 3).Known (IntegerState.mk 1 3).Assumed ∧
    ¬ bitSubset (applySteps (IntegerState.mk 1 3) [Step.takeAssumedMin 2]).Known
        (applySteps (IntegerState.mk 1 3) [Step.takeAssumedMin 2]).Assumed := by
  decide

/-- C1 (amended): for every sequence built from the purely bitwise
mutating operations (`addKnownBits`, `removeAssumedBits`,
`intersectAssumedBits`, `indicateOptimisticFixpoint`,
`indicatePessimisticFixpoint`), the invariant `Known ⊆ Assumed` as
bitsets, `(Known & Assumed) == Known`, holds after every operation,
starting from any state that satisfies it; the arithmetic operations
`takeAssumedMinimum` and `takeKnownMaximum` are excluded, as they can
break the bitset inclusion. -/
theorem C1_bitwise_steps_preserve_invariant (l : List Step) :
    ∀ s : IntegerState, (∀ st ∈ l, bitwiseStep st = true) →
      bitSubset s.Known s.Assumed →
      bitSubset (applySteps s l).Known (applySteps s l).Assumed := by
  induction l with
  | nil => intro s _ h; exact h
  | cons a l ih =>
      intro s hl h
      have ha := hl a (List.mem_cons_self a l)
      have hstep : bitSubset (applyStep s a).Known (applyStep s a).Assumed := by
        cases a with
        | addKnown b => exact subset_addKnownBits s b h
        | removeAssumed b => exact subset_removeAssumedBits s b
        | intersectAssumed b => exact subset_intersectAssumedBits s b
        | takeAssumedMin v => exact absurd ha (by simp [bitwiseStep])
        | takeKnownMax v => exact absurd ha (by simp [bitwiseStep])
        | indicateOpt => exact subset_indicateOpt s
        | indicatePess => exact subset_indicatePess s
      exact ih (applyStep s a) (fun st hst => hl st (List.mem_cons_of_mem a hst)) hstep

/-- C1 (witness): the amended invariant-preservation theorem applied to
the state `Known = 1, Assumed = 3` and a concrete bitwise sequence. -/
theorem C1_witness :
    bitSubset (IntegerState.mk 1 3).Known (IntegerState.mk 1 3).Assumed ∧
    bitSubset
      (applySteps (IntegerState.mk 1 3)
        [Step.addKnown 4, Step.removeAssumed 2, Step.indicatePess]).Known
      (applySteps (IntegerState.mk 1 3)
        [Step.addKnown 4, Step.removeAssumed 2, Step.indicatePess]).Assumed :=
  ⟨by decide,
   C1_bitwise_steps_preserve_invariant
     [Step.addKnown 4, Step.removeAssumed 2, Step.indicatePess]
     (IntegerState.mk 1 3) (by decide) (by decide)⟩

/-- C2 (counterexample): the claim that every mutating step shrinks
`Assumed` bitwise fails for `addKnownBits`: on the state
`Known = 0, Assumed = 1` (which satisfies the invariant), the call
`addKnownBits(2)` sets `Assumed` to `3`, which is not a bitset subset
of the previous `Assumed = 1`. -/
theorem C2_counterexample :
    bitSubset (IntegerState.mk 0 1).Known (IntegerState.mk 0 1).Assumed ∧
    ¬ bitSubset ((IntegerState.mk 0 1).addKnownBits 2).Assumed
        (IntegerState.mk 0 1).Assumed := by
  decide

/-- C2 (amended): per-operation monotonicity of an `IntegerState`
satisfying `Known ⊆ Assumed`: `removeAssumedBits` and
`intersectAssumedBits` leave `Known` unchanged and shrink `Assumed`
bitwise; `addKnownBits` grows `Known` bitwise and sets `Assumed` to
`Assumed | Bits`, so `Assumed` may grow by exactly the newly known
bits; `takeAssumedMinimum` leaves `Known` unchanged and does not
increase `Assumed` numerically; `takeKnownMaximum` decreases neither
`Known` nor `Assumed` numerically. -/
theorem C2_per_op_monotonicity (s : IntegerState) (b : Nat)
    (h : bitSubset s.Known s.Assumed) :
    ((s.removeAssumedBits b).Known = s.Known ∧
      bitSubset (s.removeAssumedBits b).Assumed s.Assumed) ∧
    ((s.intersectAssumedBits b).Known = s.Known ∧
      bitSubset (s.intersectAssumedBits b).Assumed s.Assumed) ∧
    (bitSubset s.Known (s.addKnownBits b).Known ∧
      (s.addKnownBits b).Assumed = s.Assumed ||| b % U32) ∧
    ((s.takeAssumedMinimum b).Known = s.Known ∧
      (s.takeAssumedMinimum b).Assumed ≤ s.Assumed) ∧
    (s.Known ≤ (s.takeKnownMaximum b).Known ∧
      s.Assumed ≤ (s.takeKnownMaximum b).Assumed) := by
  refine ⟨⟨rfl, ?_⟩, ⟨rfl, ?_⟩, ⟨?_, rfl⟩, ⟨rfl, ?_⟩, ?_, ?_⟩
  · show ((s.Assumed &&& compl32 b) ||| s.Known) &&& s.Assumed =
      (s.Assumed &&& compl32 b) ||| s.Known
    apply Nat.eq_of_testBit_eq
    intro i
    have hi := bitSubset_testBit h i
    simp only [Nat.testBit_land, Nat.testBit_lor]
    revert hi
    cases s.Known.testBit i <;> cases s.Assumed.testBit i <;>
      cases (compl32 b).testBit i <;> decide
  · show ((s.Assumed &&& b % U32) ||| s.Known) &&& s.Assumed =
      (s.Assumed &&& b % U32) ||| s.Known
    apply Nat.eq_of_testBit_eq
    intro i
    have hi := bitSubset_testBit h i
    simp only [Nat.testBit_land, Nat.testBit_lor]
    revert hi
    cases s.Known.testBit i <;> cases s.Assumed.testBit i <;>
      cases (b % U32).testBit i <;> decide
  · show s.Known &&& (s.Known ||| b % U32) = s.Known
    apply Nat.eq_of_testBit_eq
    intro i
    simp only [Nat.testBit_land, Nat.testBit_lor]
    cases s.Known.testBit i <;> cases (b % U32).testBit i <;> rfl
  · exact max_le (Nat.min_le_left _ _) (bitSubset_le h)
  · exact Nat.le_max_right _ _
  · exact Nat.le_max_right _ _

/-- C2 (witness): the amended monotonicity theorem applied to the state
`Known = 1, Assumed = 3` with argument `2`. -/
theorem C2_witness :
    ((IntegerState.mk 1 3).takeAssumedMinimum 2).Assumed ≤
      (IntegerState.mk 1 3).Assumed :=
  (C2_per_op_monotonicity (IntegerState.mk 1 3) 2 (by decide)).2.2.2.1.2

/-- C3: `isAtFixpoint()` returns true exactly when `Assumed == Known`,
and `isValidState()` returns true exactly when `Assumed` differs from
the designated worst state `0`. -/
theorem C3_fixpoint_and_validity (s : IntegerState) :
    (s.isAtFixpoint = true ↔ s.Assumed = s.Known) ∧
    (s.isValidState = true ↔ s.Assumed ≠ 0) := by
  constructor
  · simp [IntegerState.isAtFixpoint]
  · simp [IntegerState.isValidState, IntegerState.getWorstState]

/-- C4 (counterexample): on the state `Known = 0, Assumed = 3`,
`indicateOptimisticFixpoint` leaves `Assumed = 3`, not the prior
`Known = 0` the claim requires, and `indicatePessimisticFixpoint`
leaves `Known = 0`, not the prior `Assumed = 3`: the claim has the two
directions swapped. -/
theorem C4_counterexample :
    ((IntegerState.mk 0 3).indicateOptimisticFixpoint).1.Assumed ≠
      (IntegerState.mk 0 3).Known ∧
    ((IntegerState.mk 0 3).indicatePessimisticFixpoint).1.Known ≠
      (IntegerState.mk 0 3).Assumed := by
  decide

/-- C4 (amended): `indicateOptimisticFixpoint` reaches the fixpoint by
widening `Known` up to `Assumed` (afterwards `Known` equals the prior
`Assumed` and `Assumed` is unchanged, status `UNCHANGED`), and
`indicatePessimisticFixpoint` reaches it by narrowing `Assumed` down to
`Known` (afterwards `Assumed` equals the prior `Known` and `Known` is
unchanged, status `CHANGED`); both land at a fixpoint. -/
theorem C4_fixpoint_indication (s : IntegerState) :
    (s.indicateOptimisticFixpoint).1.Known = s.Assumed ∧
    (s.indicateOptimisticFixpoint).1.Assumed = s.Assumed ∧
    (s.indicateOptimisticFixpoint).2 = ChangeStatus.UNCHANGED ∧
    (s.indicatePessimisticFixpoint).1.Assumed = s.Known ∧
    (s.indicatePessimisticFixpoint).1.Known = s.Known ∧
    (s.indicatePessimisticFixpoint).2 = ChangeStatus.CHANGED ∧
    (s.indicateOptimisticFixpoint).1.isAtFixpoint = true ∧
    (s.indicatePessimisticFixpoint).1.isAtFixpoint = true := by
  refine ⟨rfl, rfl, rfl, rfl, rfl, rfl, ?_, ?_⟩ <;>
    simp [IntegerState.isAtFixpoint, IntegerState.indicateOptimisticFixpoint,
      IntegerState.indicatePessimisticFixpoint]

/-- C5 (counterexample): on the state `Known = 0, Assumed = 5`, which
is a valid state, `indicatePessimisticFixpoint` sets `Assumed` to
`Known = 0`, and the resulting terminal state is invalid, contradicting
the claim that the forced pessimistic fixpoint always yields a valid
state. -/
theorem C5_counterexample :
    (IntegerState.mk 0 5).isValidState = true ∧
    ((IntegerState.mk 0 5).indicatePessimisticFixpoint).1.isValidState = false := by
  decide

/-- C5 (amended): `indicatePessimisticFixpoint` leaves the state at a
fixpoint and does not retract any `Known` bits (`Known` is unchanged),
but the resulting terminal state is a valid state exactly when the
prior `Known` value was nonzero. -/
theorem C5_pessimistic_fixpoint (s : IntegerState) :
    ((s.indicatePessimisticFixpoint).1.isAtFixpoint = true) ∧
    ((s.indicatePessimisticFixpoint).1.Known = s.Known) ∧
    ((s.indicatePessimisticFixpoint).1.isValidState = true ↔ s.Known ≠ 0) := by
  refine ⟨?_, rfl, ?_⟩ <;>
    simp [IntegerState.isAtFixpoint, IntegerState.isValidState,
      IntegerState.getWorstState, IntegerState.indicatePessimisticFixpoint]

/-- C9: a default-constructed `IntegerState` (`Assumed = ~0`,
`Known = 0`) and a default-constructed `BooleanState` (`Assumed = 1`,
`Known = 0`) are valid and not at a fixpoint; more generally an
`IntegerState` constructed with any nonzero `BestState` starts valid
and not at a fixpoint. -/
theorem C9_initial_state (b : Nat) (hb1 : b < U32) (hb2 : b ≠ 0) :
    (IntegerState.initDefault.isValidState = true ∧
      IntegerState.initDefault.isAtFixpoint = false) ∧
    (BooleanState.init.isValidState = true ∧
      BooleanState.init.isAtFixpoint = false) ∧
    ((IntegerState.init b).isValidState = true ∧
      (IntegerState.init b).isAtFixpoint = false) := by
  refine ⟨by decide, by decide, ?_, ?_⟩
  · simp [IntegerState.isValidState, IntegerState.init,
      IntegerState.getWorstState, Nat.mod_eq_of_lt hb1, hb2]
  · simp [IntegerState.isAtFixpoint, IntegerState.init,
      Nat.mod_eq_of_lt hb1, hb2]

/-- C9 (witness): the initial-state theorem applied at `BestState = 5`. -/
theorem C9_witness :
    (IntegerState.init 5).isValidState = true ∧
    (IntegerState.init 5).isAtFixpoint = false :=
  (C9_initial_state 5 (by decide) (by decide)).2.2

/-- C10: `addKnownBits`, `removeAssumedBits` and `intersectAssumedBits`
are each idempotent: applying the same operation with the same mask
twice yields the same `(Known, Assumed)` pair as applying it once. -/
theorem C10_idempotence (s : IntegerState) (b : Nat) :
    (s.addKnownBits b).addKnownBits b = s.addKnownBits b ∧
    (s.removeAssumedBits b).removeAssumedBits b = s.removeAssumedBits b ∧
    (s.intersectAssumedBits b).intersectAssumedBits b = s.intersectAssumedBits b := by
  refine ⟨?_, ?_, ?_⟩
  · show IntegerState.mk ((s.Known ||| b % U32) ||| b % U32)
        ((s.Assumed ||| b % U32) ||| b % U32) =
      IntegerState.mk (s.Known ||| b % U32) (s.Assumed ||| b % U32)
    rw [lor_lor_self, lor_lor_self]
  · show IntegerState.mk s.Known
        ((((s.Assumed &&& compl32 b) ||| s.Known) &&& compl32 b) ||| s.Known) =
      IntegerState.mk s.Known ((s.Assumed &&& compl32 b) ||| s.Known)
    rw [and_or_round_trip]
  · show IntegerState.mk s.Known
        ((((s.Assumed &&& b % U32) ||| s.Known) &&& b % U32) ||| s.Known) =
      IntegerState.mk s.Known ((s.Assumed &&& b % U32) ||| s.Known)
    rw [and_or_round_trip]

/-- C6: `getAAFor` records the querying attribute in the query map of
the returned attribute exactly when the returned state is valid: when
valid, the querying attribute is a member of the returned query set,
and when invalid, the query map is left untouched; this covers both the
branch where the attribute was found in the pool and the branch where
it is freshly created and registered. -/
theorem C6_getAAFor_dependency (valid : AAId → Bool) (st : AttributorState)
    (q pos kind fresh : AAId) :
    (valid (getAAFor valid st q pos kind fresh).1 = true →
      q ∈ (getAAFor valid st q pos kind fresh).2.queryMap
        (getAAFor valid st q pos kind fresh).1) ∧
    (valid (getAAFor valid st q pos kind fresh).1 = false →
      (getAAFor valid st q pos kind fresh).2.queryMap = st.queryMap) := by
  unfold getAAFor
  cases hm : st.aaMap pos kind with
  | some aa =>
      cases hv : valid aa with
      | true =>
          simp [hv, recordQuery]
          exact mem_insertSetVector _ q
      | false =>
          simp [hv]
  | none =>
      cases hv : valid fresh with
      | true =>
          simp [hv, recordQuery]
          exact mem_insertSetVector _ q
      | false =>
          simp [hv, registerAA]

/-- C6 (witness): the dependency theorem applied to a fresh Attributor,
once with an always-valid state and once with an always-invalid one. -/
theorem C6_witness :
    7 ∈ (getAAFor (fun _ => true) emptyAttributor 7 0 0 42).2.queryMap
      (getAAFor (fun _ => true) emptyAttributor 7 0 0 42).1 ∧
    (getAAFor (fun _ => false) emptyAttributor 7 0 0 42).2.queryMap =
      emptyAttributor.queryMap :=
  ⟨(C6_getAAFor_dependency (fun _ => true) emptyAttributor 7 0 0 42).1 rfl,
   (C6_getAAFor_dependency (fun _ => false) emptyAttributor 7 0 0 42).2 rfl⟩

/-- C7: for a call-site-returned position whose callee is statically
known, the subsuming positions are the original position, the resolved
callee as a returned position, the call-site position, and the resolved
callee as a function position, in that order; when the callee is
unknown, the callee-derived entries are omitted. -/
theorem C7_call_site_returned_order (calleeOf : Nat → Option Nat)
    (operandPos : Nat → Nat → Option ModelPosition) (cs f : Nat) :
    (calleeOf cs = some f →
      subsumingPositions calleeOf operandPos
          (ModelPosition.mk PosKind.IRP_CALL_SITE_RETURNED cs 0) =
        [ModelPosition.mk PosKind.IRP_CALL_SITE_RETURNED cs 0,
         ModelPosition.mk PosKind.IRP_RETURNED f 0,
         ModelPosition.mk PosKind.IRP_CALL_SITE cs 0,
         ModelPosition.mk PosKind.IRP_FUNCTION f 0]) ∧
    (calleeOf cs = none →
      subsumingPositions calleeOf operandPos
          (ModelPosition.mk PosKind.IRP_CALL_SITE_RETURNED cs 0) =
        [ModelPosition.mk PosKind.IRP_CALL_SITE_RETURNED cs 0,
         ModelPosition.mk PosKind.IRP_CALL_SITE cs 0]) := by
  constructor <;> intro h <;> simp [subsumingPositions, h]

/-- C7 (witness): the ordering theorem applied to a call site `4` whose
callee resolves to function `9`, and to one with unknown callee. -/
theorem C7_witness :
    subsumingPositions (fun _ => some 9) (fun _ _ => none)
        (ModelPosition.mk PosKind.IRP_CALL_SITE_RETURNED 4 0) =
      [ModelPosition.mk PosKind.IRP_CALL_SITE_RETURNED 4 0,
       ModelPosition.mk PosKind.IRP_RETURNED 9 0,
       ModelPosition.mk PosKind.IRP_CALL_SITE 4 0,
       ModelPosition.mk PosKind.IRP_FUNCTION 9 0] ∧
    subsumingPositions (fun _ => none) (fun _ _ => none)
        (ModelPosition.mk PosKind.IRP_CALL_SITE_RETURNED 4 0) =
      [ModelPosition.mk PosKind.IRP_CALL_SITE_RETURNED 4 0,
       ModelPosition.mk PosKind.IRP_CALL_SITE 4 0] :=
  ⟨(C7_call_site_returned_order (fun _ => some 9) (fun _ _ => none) 4 9).1 rfl,
   (C7_call_site_returned_order (fun _ => none) (fun _ _ => none) 4 9).2 rfl⟩

/-- C8 (counterexample): registering a second attribute at the
`(Position, kind)` pair `(0, 0)` is silently accepted: no assertion
guards `registerAA`, the lookup entry is overwritten with the second
attribute (the first is no longer reachable through the map) and both
instances sit in the owning pool. -/
theorem C8_counterexample :
    (registerAA (registerAA emptyAttributor 0 0 1) 0 0 2).aaMap 0 0 = some 2 ∧
    (registerAA (registerAA emptyAttributor 0 0 1) 0 0 2).aaMap 0 0 ≠ some 1 ∧
    (registerAA (registerAA emptyAttributor 0 0 1) 0 0 2).allAbstractAttributes =
      [1, 2] := by
  refine ⟨?_, ?_, rfl⟩ <;> simp [registerAA, emptyAttributor]

/-- C8 (amended): registering a second `AbstractAttribute` at the same
`(Position, kind)` pair is not rejected: `registerAA` overwrites the
lookup-map entry, so the second attribute wins every later lookup,
while both instances are appended to the owning pool; the query map is
untouched. -/
theorem C8_registerAA_overwrites (st : AttributorState) (pos kind a1 a2 : AAId) :
    (registerAA (registerAA st pos kind a1) pos kind a2).aaMap pos kind = some a2 ∧
    (registerAA (registerAA st pos kind a1) pos kind a2).allAbstractAttributes =
      st.allAbstractAttributes ++ [a1, a2] ∧
    (registerAA (registerAA st pos kind a1) pos kind a2).queryMap = st.queryMap := by
  refine ⟨?_, ?_, rfl⟩ <;> simp [registerAA]

end AttributorModel
